import Mathlib

/-!
Shallow embedding of the payment-tracking core of the repository
(`src/Scripts/WFPHandler.py`): the order ledger, invoice creation,
the reconciliation sweep (`get_payment_data`) and the bounded wait
(`check_payment_data`), together with theorems settling the frozen
claims about them.

Conventions of the embedding:
* a Python dict `{"order_reference": ..., "product_type": ...,
  "order_date": ..., [optional] "payment_status": ...}` is the
  structure `Order`, the optional key being an `Option`;
* the handler's `self.payments` dict (user id -> list of orders) is an
  association list `Ledger := List (Nat × List Order)` preserving
  Python's dict insertion order;
* wall-clock timestamps are `Int` (Python ints), poll counters `Nat`;
* each network call the source issues is made explicit as a value
  (a `SigRequest` produced, or a gateway response consumed), so that
  "issues no network call" is a statement about the model's output;
* exceptions raised by the source become explicit constructors of
  result types.
-/

namespace WFP

/-- One tracked order, as appended by `create_invoice`
(WFPHandler.py lines 97-101); `payment_status` is the key written
later by the reconciliation loop (line 180), absent at creation. -/
structure Order where
  order_reference : String
  product_type : String
  order_date : Int
  payment_status : Option String
deriving Repr, DecidableEq

/-- One element of the gateway's `transactionList` response, exposing
the two fields the sweep reads (lines 176-177). -/
structure Transaction where
  orderReference : String
  transactionStatus : String
deriving Repr, DecidableEq

/-- The terminal status set of line 179:
`["Approved", "Declined", "Expired"]`. -/
def terminalStatuses : List String := ["Approved", "Declined", "Expired"]

/-- `transaction_status in ["Approved", "Declined", "Expired"]` (line 179). -/
def isTerminal (s : String) : Bool := terminalStatuses.contains s

/-- The handler's `self.payments` mapping, insertion-ordered. -/
abbrev Ledger := List (Nat × List Order)

/-- `self.payments.get(user_id)` / key lookup. -/
def ledgerGet (l : Ledger) (uid : Nat) : Option (List Order) :=
  match l with
  | [] => none
  | (u, os) :: rest => if u = uid then some os else ledgerGet rest uid

/-- `self.payments[user_id] = os`: replace the value if the key is
present, else insert at the end (Python dicts keep insertion order). -/
def ledgerSet (l : Ledger) (uid : Nat) (os : List Order) : Ledger :=
  match l with
  | [] => [(uid, os)]
  | (u, os0) :: rest =>
      if u = uid then (u, os) :: rest else (u, os0) :: ledgerSet rest uid os

/-- `del self.payments[user_id]`. -/
def ledgerErase (l : Ledger) (uid : Nat) : Ledger :=
  match l with
  | [] => []
  | (u, os) :: rest => if u = uid then rest else (u, os) :: ledgerErase rest uid

/-- `order_reference = f"{user_id}-{order_date}"` (line 84). -/
def mkOrderReference (uid : Nat) (orderDate : Int) : String :=
  toString uid ++ "-" ++ toString orderDate

/-- The string signed for invoice creation (line 87):
`f"{MERCHANT_ACCOUNT};{DOMAIN_NAME};{order_reference};{order_date};{amount};UAH;{product_name};1;{amount}"`. -/
def create_invoice_signature_data (ma dn orderRef : String) (orderDate amount : Int)
    (productName : String) : String :=
  ma ++ ";" ++ dn ++ ";" ++ orderRef ++ ";" ++ toString orderDate ++ ";" ++
    toString amount ++ ";UAH;" ++ productName ++ ";1;" ++ toString amount

/-- The string signed for a transaction-list lookup (line 155):
`f"{MERCHANT_ACCOUNT};{date_begin-1000};{date_end}"` where
`date_begin = payment["order_date"]`. -/
def get_payment_signature_data (ma : String) (dateBegin dateEnd : Int) : String :=
  ma ++ ";" ++ toString (dateBegin - 1000) ++ ";" ++ toString dateEnd

/-- Spec-side formulation (spec section 4.1): fields joined with `;`
in caller-specified order. Used only to compare the source's
interpolated strings against the spec's field-list contract. -/
def signJoin : List String → String
  | [] => ""
  | [f] => f
  | f :: rest => f ++ ";" ++ signJoin rest

/-- Gateway response behaviours for one `create_invoice` POST
(lines 121-130): a JSON body with `invoiceUrl`/`qrCode`, a body
lacking `invoiceUrl`, or a transport failure (exception). -/
inductive GatewayResp where
  | ok (url qr : String)
  | noUrl
  | transportFail
deriving Repr, DecidableEq

/-- What `create_invoice` does for the caller: the success dict
`{"invoice_url": ..., "qr_code": ...}` (line 126), the error dict
`{"error": "error"}` (line 128), or the transport-failure path
(line 129-130), where the `except` block itself raises
`UnboundLocalError` because `result` is unbound, so the caller sees
an exception. -/
inductive CreateOutcome where
  | success (url qr : String)
  | errorDict
  | raised
deriving Repr, DecidableEq

/-- `create_invoice` (lines 71-130), with the wall clock (`int(time.time())`,
line 83) and the gateway's behaviour passed in explicitly.
Lines 90-103: `user_info = self.payments.get(user_id)`; if it is falsy
(missing key or empty list) the entry is reset to `[]`; then the new
order dict is appended. Note the append happens BEFORE the POST of
lines 121-130. -/
def create_invoice (ledger : Ledger) (uid : Nat) (amount : Int) (ptype : String)
    (now : Int) (resp : GatewayResp) : Ledger × CreateOutcome :=
  let orderRef := mkOrderReference uid now
  let newOrder : Order :=
    { order_reference := orderRef, product_type := ptype,
      order_date := now, payment_status := none }
  let existing := (ledgerGet ledger uid).getD []
  let base := if existing.isEmpty then [] else existing
  let ledger' := ledgerSet ledger uid (base ++ [newOrder])
  match resp with
  | .ok url qr => (ledger', .success url qr)
  | .noUrl => (ledger', .errorDict)
  | .transportFail => (ledger', .raised)

/-- The inner scan of one sweep over one order (lines 175-180): for
each transaction in the response, if its `orderReference` equals the
order's reference and its status is terminal, (re)write
`payment["payment_status"]` — there is no check that a status is
already present. `order_reference` is read once before the loop
(line 152) and never written, so comparing against the evolving
order's field is the same comparison. -/
def scanOrder (o : Order) : List Transaction → Order
  | [] => o
  | tx :: rest =>
      scanOrder
        (if tx.orderReference == o.order_reference && isTerminal tx.transactionStatus
         then { o with payment_status := some tx.transactionStatus }
         else o)
        rest

/-- The status of the last transaction in the list that matches `ref`
and is terminal, if any: the value `scanOrder` leaves behind. -/
def lastTerminal (ref : String) : List Transaction → Option String
  | [] => none
  | tx :: rest =>
      match lastTerminal ref rest with
      | some s => some s
      | none =>
          if tx.orderReference == ref && isTerminal tx.transactionStatus
          then some tx.transactionStatus
          else none

/-- One signed `TRANSACTION_LIST` request as built on lines 155-165:
the signature input string plus the window bounds posted to the
gateway. -/
structure SigRequest where
  sigData : String
  dateBegin : Int
  dateEnd : Int
deriving Repr, DecidableEq

/-- The request lines 155-165 build for one order in a sweep:
`date_begin = payment["order_date"]`, window `[date_begin - 1000,
date_end]` with `date_end` a parameter captured once per sweep
(line 146). -/
def requestFor (ma : String) (dateEnd : Int) (o : Order) : SigRequest :=
  { sigData := get_payment_signature_data ma o.order_date dateEnd,
    dateBegin := o.order_date - 1000,
    dateEnd := dateEnd }

/-- One sweep of `get_payment_data` (lines 146-186) over one user's
order list: for EVERY payment in the list — with no status check
before the network call — a request is issued (lines 155-170) and the
response scanned (lines 175-180). Returns the requests issued and the
updated list. `resp` gives the gateway's `transactionList` for each
order's query. -/
def sweepUser (ma : String) (dateEnd : Int) (resp : Order → List Transaction)
    (l : List Order) : List SigRequest × List Order :=
  (l.map (requestFor ma dateEnd), l.map (fun o => scanOrder o (resp o)))

/-- One full sweep over the ledger (lines 148-186): iterate users in
order, sweep each list, and afterwards (`if not payments:` line 182)
drop the user's key if its list is empty — the inner loop never
changes the list's length, so this only removes lists that were
already empty. Returns all requests issued and the new ledger. -/
def sweepLedger (ma : String) (dateEnd : Int) (resp : Order → List Transaction)
    (ledger : Ledger) : List SigRequest × Ledger :=
  match ledger with
  | [] => ([], [])
  | (uid, l) :: rest =>
      let (reqs, l') := sweepUser ma dateEnd resp l
      let (reqsRest, rest') := sweepLedger ma dateEnd resp rest
      (reqs ++ reqsRest, if l'.isEmpty then rest' else (uid, l') :: rest')

/-- The in-place list rebuild of lines 212-215:
`user_payments[:] = [p for i, p in enumerate(user_payments) if not
(p.get("product_type") == product_type and target_dict is not None)]`.
`td` is the value of `target_dict` while the comprehension runs: it is
`None` there (the first assignment to `target_dict` happens only in
the later scan of lines 216-219), but the embedding keeps it as a
parameter to mirror the source expression. -/
def rebuildPass (pt : String) (td : Option Order) (l : List Order) : List Order :=
  l.filter (fun p => !(p.product_type == pt && td.isSome))

/-- The scan of lines 216-219: iterate with index over the whole list
(no break), capturing the first payment whose `product_type` matches
while `target_dict is None`. Accumulator is
(`target_dict`, `target_index`, running index). -/
def selectStep (pt : String) (acc : Option Order × Option Nat × Nat) (p : Order) :
    Option Order × Option Nat × Nat :=
  match acc with
  | (td, ti, i) =>
      if p.product_type == pt && td.isNone
      then (some p, some i, i + 1)
      else (td, ti, i + 1)

/-- The pair (`target_dict`, `target_index`) the scan of lines 216-219
leaves behind. -/
def selectPair (pt : String) (l : List Order) : Option Order × Option Nat :=
  let r := l.foldl (selectStep pt) (none, none, 0)
  (r.1, r.2.1)

/-- Spec-side reference selection (spec sections 3, 4.5 and 9): the
first Order whose `product_type` matches, with its index; `none` when
no Order matches. The sequence itself is untouched. -/
def firstMatch (pt : String) : List Order → Option (Order × Nat)
  | [] => none
  | p :: rest =>
      if p.product_type == pt then some (p, 0)
      else (firstMatch pt rest).map (fun r => (r.1, r.2 + 1))

/-- The waiting loop of lines 236-268 specialised to a target whose
`payment_status` is never set: each iteration checks
`time.time() - start_time > timeout` (line 262) and otherwise sleeps
the poll interval. `elapsed` is the idealised elapsed time at the
current iteration (iteration k resumes at `poll * k`); the result is
the elapsed time at which `TimeoutError` is raised, or `none` if the
fuel runs out first. -/
def waitElapsed (timeout poll : Nat) : Nat → Nat → Option Nat
  | 0, _ => none
  | fuel + 1, elapsed =>
      if elapsed > timeout then some elapsed
      else waitElapsed timeout poll fuel (elapsed + poll)

/-- Outcome of `check_payment_data` (lines 191-268). -/
inductive CheckOutcome where
  | notFound
  | timeoutErr (elapsed : Nat)
  | success (uid : Nat) (status : String)
  | fuelOut
deriving Repr, DecidableEq

/-- `timeout = 60 * 20` (line 233). -/
def checkTimeout : Nat := 60 * 20

/-- The poll interval `await asyncio.sleep(5)` (line 268). -/
def checkPoll : Nat := 5

/-- `check_payment_data` (lines 191-268) in the absence of concurrent
writers (the target's status does not change while waiting; the
interleaved completion step is modelled separately by `completeStep`).
Steps: read `self.payments.get(user_id, [])` (line 206); rebuild the
list in place (lines 212-215) — in-place `[:]` assignment, so the
ledger's entry is updated only if the key was present; scan for the
first match (lines 216-219); if none, raise `ValueError` (line 231);
otherwise poll: with the status absent forever the loop raises
`TimeoutError` once `elapsed > timeout` (lines 262-266), popping
nothing; with the status present the first iteration pops
`target_index` (line 242), deletes the user's key if the list became
empty (lines 243-244) and returns `(user_id, status)` (line 249).
The third component lists the gateway requests issued: the source of
`check_payment_data` contains no network call, so it is `[]` on every
path. -/
def check_payment_data (ledger : Ledger) (uid : Nat) (pt : String) (fuel : Nat) :
    CheckOutcome × Ledger × List SigRequest :=
  let ups := (ledgerGet ledger uid).getD []
  let ups1 := rebuildPass pt none ups
  let ledger1 := if (ledgerGet ledger uid).isSome then ledgerSet ledger uid ups1 else ledger
  match selectPair pt ups1 with
  | (none, _) => (.notFound, ledger1, [])
  | (some target, ti) =>
      match target.payment_status with
      | none =>
          match waitElapsed checkTimeout checkPoll fuel 0 with
          | some e => (.timeoutErr e, ledger1, [])
          | none => (.fuelOut, ledger1, [])
      | some s =>
          let idx := ti.getD 0
          let ups2 := ups1.eraseIdx idx
          let ledger2 :=
            if ups2.isEmpty && (ledgerGet ledger1 uid).isSome
            then ledgerErase ledger1 uid
            else ledgerSet ledger1 uid ups2
          (.success uid s, ledger2, [])

/-- Result of one resumption of the waiting loop (lines 236-268) for
an awaiter that had captured `target_dict` and `target_index`, running
against the current shared list: `notReady` if the status is absent
(the loop continues), `indexError` if `user_payments.pop(target_index)`
raises `IndexError` (line 242; caught by `except Exception` and
re-raised, lines 255-260), `done` with the new list and the returned
status otherwise. -/
inductive AwaitStep where
  | notReady
  | indexError
  | done (l' : List Order) (status : String)
deriving Repr, DecidableEq

/-- One completion attempt of an awaiter (lines 238-249) against the
shared list `l` (both concurrent awaiters alias the same list object:
the `[:]` rebuild and `pop` mutate it in place). The awaiter re-reads
`target_dict` — the dict object it captured, whose fields the
reconciliation loop may have updated — not `l[idx]`. -/
def completeStep (target : Order) (idx : Nat) (l : List Order) : AwaitStep :=
  match target.payment_status with
  | none => .notReady
  | some s => if idx < l.length then .done (l.eraseIdx idx) s else .indexError

/-- The handler instance's fields set by `__init__` (lines 41-56). -/
structure WFPInstance where
  MERCHANT_ACCOUNT : Option String
  SECRET_KEY : Option String
  DOMAIN_NAME : Option String
  payments : Ledger
deriving Repr, DecidableEq

/-- The `SingletonMeta._instances` entry for `WayForPayHandler`. -/
abbrev SingletonState := Option WFPInstance

/-- `SingletonMeta.__call__` (lines 21-32) for `WayForPayHandler`:
if no instance is cached, construct one (running `__init__`, lines
41-56, which stores the three arguments and an empty `payments` dict)
and cache it; otherwise return the cached instance without calling
`__init__` at all. -/
def constructHandler (st : SingletonState) (ma sk dn : Option String) :
    SingletonState × WFPInstance :=
  match st with
  | some inst => (some inst, inst)
  | none =>
      let inst : WFPInstance :=
        { MERCHANT_ACCOUNT := ma, SECRET_KEY := sk, DOMAIN_NAME := dn, payments := [] }
      (some inst, inst)

/-! ## Helper lemmas about the ledger and the selection passes -/

theorem ledgerGet_ledgerSet_self (l : Ledger) (uid : Nat) (os : List Order) :
    ledgerGet (ledgerSet l uid os) uid = some os := by
  induction l with
  | nil => simp [ledgerSet, ledgerGet]
  | cons p rest ih =>
      obtain ⟨u, os0⟩ := p
      by_cases h : u = uid <;> simp [ledgerSet, ledgerGet, h, ih]

theorem ledgerSet_self (l : Ledger) (uid : Nat) (os : List Order)
    (h : ledgerGet l uid = some os) : ledgerSet l uid os = l := by
  induction l with
  | nil => simp [ledgerGet] at h
  | cons p rest ih =>
      obtain ⟨u, os0⟩ := p
      by_cases hu : u = uid
      · simp only [ledgerGet, if_pos hu, Option.some.injEq] at h
        simp [ledgerSet, hu, h]
      · simp only [ledgerGet, if_neg hu] at h
        simp [ledgerSet, hu, ih h]

theorem rebuildPass_none (pt : String) (l : List Order) :
    rebuildPass pt none l = l := by
  simp [rebuildPass]

theorem baseList_eq (l : List Order) :
    (if l.isEmpty then ([] : List Order) else l) = l := by
  cases l <;> simp

/-- `create_invoice` always stores `existing ++ [new order]` for the user,
whatever the gateway does. -/
theorem create_invoice_ledger (ledger : Ledger) (uid : Nat) (amount : Int)
    (ptype : String) (now : Int) (resp : GatewayResp) :
    (create_invoice ledger uid amount ptype now resp).1 =
      ledgerSet ledger uid (((ledgerGet ledger uid).getD []) ++
        [⟨mkOrderReference uid now, ptype, now, none⟩]) := by
  cases resp <;> (simp [create_invoice]; split <;> simp_all)

/-! ## Claim theorems -/

/-- C10: constructing `WayForPayHandler` again returns the single cached
instance: a construction in a state already holding an instance returns
exactly that instance, ignoring its arguments and keeping the state — so
the configuration and the `payments` ledger of the first construction are
shared by every call site — while the first construction stores its
arguments and an empty ledger. -/
theorem c10_singleton (inst : WFPInstance) (ma sk dn ma0 sk0 dn0 : Option String) :
    constructHandler (some inst) ma sk dn = (some inst, inst) ∧
    constructHandler none ma0 sk0 dn0 =
      (some ⟨ma0, sk0, dn0, []⟩, ⟨ma0, sk0, dn0, []⟩) :=
  ⟨rfl, rfl⟩

/-- C2 counterexample: a transport failure during `create_invoice` raises
to the caller, yet the ledger is NOT unchanged: the Order was appended
before the POST, so the ledger gains the Order of an invoice that never
had a URL returned. -/
theorem c2_counterexample :
    (create_invoice [] 7 100 "album" 50 .transportFail).2 = .raised ∧
    (create_invoice [] 7 100 "album" 50 .transportFail).1 ≠ ([] : Ledger) ∧
    (create_invoice [] 7 100 "album" 50 .transportFail).1 =
      [(7, [⟨"7-50", "album", 50, none⟩])] := by
  decide

/-- C2 amended: on a failing gateway call (transport failure or a response
lacking an invoice URL) `create_invoice` fails visibly to the caller
(exception resp. error dict), but the Order has ALREADY been appended:
the ledger after any such call is the ledger before with the new Order
appended to the user's sequence, not the unchanged ledger. -/
theorem c2_amended (ledger : Ledger) (uid : Nat) (amount : Int) (ptype : String)
    (now : Int) :
    (create_invoice ledger uid amount ptype now .transportFail).2 = .raised ∧
    (create_invoice ledger uid amount ptype now .noUrl).2 = .errorDict ∧
    ∀ resp, (create_invoice ledger uid amount ptype now resp).1 =
      ledgerSet ledger uid (((ledgerGet ledger uid).getD []) ++
        [⟨mkOrderReference uid now, ptype, now, none⟩]) := by
  refine ⟨rfl, rfl, ?_⟩
  intro resp
  exact create_invoice_ledger ledger uid amount ptype now resp

/-- C7 counterexample: two invoices created for the same user in the same
second (distinct Orders — different product types) receive the SAME
`order_reference`: global uniqueness fails. -/
theorem c7_counterexample :
    ((ledgerGet (create_invoice
        (create_invoice [] 7 100 "album" 50 (.ok "u" "q")).1
        7 200 "poster" 50 (.ok "u" "q")).1 7).getD []).map Order.order_reference =
      ["7-50", "7-50"] := by
  decide

/-- C7 amended: the reference is derived deterministically from the user
identity and the creation timestamp — equal (user, timestamp) inputs give
equal references, whatever the other arguments, and the Order appended by
`create_invoice` carries exactly `mkOrderReference uid now` — but the
references are NOT globally unique: the derivation ignores everything
else, so two Orders created for one user in one second share a reference. -/
theorem c7_amended (uid uid' : Nat) (now now' amount : Int) (ptype : String)
    (resp : GatewayResp) (ledger : Ledger)
    (hu : uid' = uid) (hn : now' = now) :
    mkOrderReference uid' now' = mkOrderReference uid now ∧
    ∃ os, ledgerGet (create_invoice ledger uid amount ptype now resp).1 uid = some os ∧
      os.getLast? = some ⟨mkOrderReference uid now, ptype, now, none⟩ := by
  subst hu; subst hn
  refine ⟨rfl, ?_⟩
  rw [create_invoice_ledger]
  exact ⟨_, ledgerGet_ledgerSet_self ledger uid' _, by simp⟩

theorem c7_amended_witness :
    mkOrderReference 7 50 = mkOrderReference 7 50 ∧
    ∃ os, ledgerGet (create_invoice [] 7 100 "album" 50 (.ok "u" "q")).1 7 = some os ∧
      os.getLast? = some ⟨mkOrderReference 7 50, "album", 50, none⟩ :=
  c7_amended 7 7 50 50 100 "album" (.ok "u" "q") [] rfl rfl

/-- Once `target_dict` is committed, the rest of the scan changes nothing
but the running index. -/
theorem selectFold_committed (pt : String) (x : Order) (ti : Option Nat) :
    ∀ (l : List Order) (i : Nat),
      l.foldl (selectStep pt) (some x, ti, i) = (some x, ti, i + l.length) := by
  intro l
  induction l with
  | nil => intro i; simp
  | cons p rest ih =>
      intro i
      have hstep : selectStep pt (some x, ti, i) p = (some x, ti, i + 1) := by
        simp [selectStep]
      rw [List.foldl_cons, hstep, ih]
      simp only [List.length_cons, Prod.mk.injEq, true_and]
      omega

/-- The scan's fold, started uncommitted at index `i`, finds exactly the
spec-side first match (index shifted by `i`). -/
theorem selectFold_uncommitted (pt : String) :
    ∀ (l : List Order) (i : Nat),
      l.foldl (selectStep pt) (none, none, i) =
        match firstMatch pt l with
        | none => (none, none, i + l.length)
        | some r => (some r.1, some (r.2 + i), i + l.length) := by
  intro l
  induction l with
  | nil => intro i; simp [firstMatch]
  | cons p rest ih =>
      intro i
      by_cases hp : (p.product_type == pt) = true
      · rw [show (p :: rest).foldl (selectStep pt) (none, none, i) =
            rest.foldl (selectStep pt) (some p, some i, i + 1) from by
          simp [selectStep, hp]]
        rw [selectFold_committed]
        simp only [firstMatch, if_pos hp]
        simp [Nat.add_assoc, Nat.add_comm 1 rest.length]
      · rw [show (p :: rest).foldl (selectStep pt) (none, none, i) =
            rest.foldl (selectStep pt) (none, none, i + 1) from by
          simp [selectStep, hp]]
        rw [ih]
        simp only [firstMatch, if_neg hp]
        cases h : firstMatch pt rest with
        | none => simp [Nat.add_assoc, Nat.add_comm 1 rest.length]
        | some r => simp [Nat.add_assoc, Nat.add_comm 1 rest.length]; omega

theorem selectPair_eq_firstMatch (pt : String) (l : List Order) :
    selectPair pt l =
      match firstMatch pt l with
      | none => (none, none)
      | some r => (some r.1, some r.2) := by
  simp only [selectPair, selectFold_uncommitted pt l 0]
  cases h : firstMatch pt l with
  | none => simp
  | some r => simp

/-- C5: the two-pass selection of lines 211-219 — in-place list rebuild,
then index scan — is behaviorally equivalent to the reference selection:
`target_dict` is still `None` while the comprehension runs, so the rebuilt
sequence equals the original, and the scan yields exactly the first Order
matching `product_type` together with its index. -/
theorem c5_two_pass_equiv (pt : String) (l : List Order) :
    rebuildPass pt none l = l ∧
    selectPair pt (rebuildPass pt none l) =
      (match firstMatch pt l with
       | none => (none, none)
       | some r => (some r.1, some r.2)) := by
  refine ⟨rebuildPass_none pt l, ?_⟩
  rw [rebuildPass_none pt l]
  exact selectPair_eq_firstMatch pt l

/-- What the per-order scan of a sweep leaves behind: the status of the
LAST matching terminal transaction of the response, the previous status
surviving only when there is none. -/
theorem scanOrder_characterization (txs : List Transaction) : ∀ o : Order,
    scanOrder o txs =
      { o with payment_status :=
          match lastTerminal o.order_reference txs with
          | none => o.payment_status
          | some s => some s } := by
  induction txs with
  | nil => intro o; simp [scanOrder, lastTerminal]
  | cons tx rest ih =>
      intro o
      by_cases hc : (tx.orderReference == o.order_reference &&
          isTerminal tx.transactionStatus) = true
      · have hstep : scanOrder o (tx :: rest) =
            scanOrder { o with payment_status := some tx.transactionStatus } rest := by
          simp [scanOrder, hc]
        rw [hstep, ih]
        simp only [lastTerminal, hc]
        cases h : lastTerminal o.order_reference rest with
        | none => simp [h]
        | some s => simp [h]
      · have hstep : scanOrder o (tx :: rest) = scanOrder o rest := by
          simp only [scanOrder]
          rw [if_neg hc]
        rw [hstep, ih]
        simp only [lastTerminal]
        cases h : lastTerminal o.order_reference rest with
        | none => simp [h, hc]
        | some s => simp [h]

/-- C1 counterexample: an Order already carrying the terminal status
"Approved" is handed to a later sweep in which the gateway reports
"Declined" for the same reference — the sweep OVERWRITES the status:
the write is not at-most-once and a later sweep changes an already-set
status. -/
theorem c1_counterexample :
    (sweepLedger "MA" 100 (fun _ => [⟨"7-50", "Declined"⟩])
        [(7, [⟨"7-50", "album", 50, some "Approved"⟩])]).2 =
      [(7, [⟨"7-50", "album", 50, some "Declined"⟩])] ∧
    (sweepLedger "MA" 100 (fun _ => [⟨"7-50", "Declined"⟩])
        [(7, [⟨"7-50", "album", 50, some "Approved"⟩])]).2 ≠
      [(7, [⟨"7-50", "album", 50, some "Approved"⟩])] := by
  decide

/-- C1 amended: a sweep writes `payment_status` unconditionally — never
checking whether it is already set — so after the per-order scan the
status equals that of the last matching terminal transaction the gateway
reported, the previously set status surviving only when the gateway
reports no matching terminal transaction (in particular a sweep whose
response repeats the same status leaves the value unchanged, but a
differing report overwrites it). -/
theorem c1_amended (o : Order) (txs : List Transaction) :
    scanOrder o txs =
      { o with payment_status :=
          match lastTerminal o.order_reference txs with
          | none => o.payment_status
          | some s => some s } :=
  scanOrder_characterization txs o

/-- The requests a full sweep issues: one per order, over every user. -/
theorem sweepLedger_requests (ma : String) (dateEnd : Int)
    (resp : Order → List Transaction) :
    ∀ ledger : Ledger,
      (sweepLedger ma dateEnd resp ledger).1 =
        (ledger.map (fun p => p.2.map (requestFor ma dateEnd))).flatten := by
  intro ledger
  induction ledger with
  | nil => rfl
  | cons p rest ih =>
      obtain ⟨uid, l⟩ := p
      simp [sweepLedger, sweepUser, ih]

/-- C6 counterexample: a sweep over a single Order whose status is
already set still issues one TRANSACTION_LIST request for it — the
source has no status check before the network call. -/
theorem c6_counterexample :
    (sweepUser "MA" 100 (fun _ => []) [⟨"7-50", "album", 50, some "Approved"⟩]).1.length = 1 ∧
    (sweepUser "MA" 100 (fun _ => []) [⟨"7-50", "album", 50, some "Approved"⟩]).1 ≠ [] := by
  decide

/-- C6 amended: every sweep issues exactly one TRANSACTION_LIST request
per Order in the ledger — including Orders whose status is already set:
the request list is the per-order map of `requestFor`, independent of
each order's `payment_status`, and its length is the total number of
Orders; no pre-network-call status check exists. -/
theorem c6_amended (ma : String) (dateEnd : Int) (resp : Order → List Transaction)
    (ledger : Ledger) :
    (sweepLedger ma dateEnd resp ledger).1 =
      (ledger.map (fun p => p.2.map (requestFor ma dateEnd))).flatten ∧
    (sweepLedger ma dateEnd resp ledger).1.length =
      (ledger.map (fun p => p.2.length)).sum := by
  refine ⟨sweepLedger_requests ma dateEnd resp ledger, ?_⟩
  rw [sweepLedger_requests ma dateEnd resp ledger]
  simp [List.length_flatten, Function.comp_def]

/-- C4: when no Order of the user matches `product_type` — including a
`user_id` absent from the ledger — `check_payment_data` fails with the
not-found error for EVERY fuel, even zero, so no polling iteration and no
wait happens; the ledger is unchanged and the list of gateway requests
issued is empty (the source of `check_payment_data` contains no network
call). -/
theorem c4_not_found (ledger : Ledger) (uid : Nat) (pt : String) (fuel : Nat)
    (h : firstMatch pt ((ledgerGet ledger uid).getD []) = none) :
    check_payment_data ledger uid pt fuel = (.notFound, ledger, []) := by
  simp only [check_payment_data, rebuildPass_none, selectPair_eq_firstMatch, h]
  cases hkey : ledgerGet ledger uid with
  | none => simp [hkey]
  | some os => simp [hkey, ledgerSet_self ledger uid os hkey]

theorem c4_not_found_witness :
    firstMatch "nonexistent" ((ledgerGet [(7, [⟨"7-50", "album", 50, none⟩])] 99).getD []) =
      none ∧
    check_payment_data [(7, [⟨"7-50", "album", 50, none⟩])] 99 "nonexistent" 0 =
      (.notFound, [(7, [⟨"7-50", "album", 50, none⟩])], []) :=
  ⟨by decide, c4_not_found _ 99 "nonexistent" 0 (by decide)⟩

/-- Extra fuel does not change the result the waiting loop has already
reached. -/
theorem waitElapsed_extra (t p : Nat) :
    ∀ (fuel e r : Nat), waitElapsed t p fuel e = some r →
      ∀ extra, waitElapsed t p (fuel + extra) e = some r := by
  intro fuel
  induction fuel with
  | zero => intro e r h extra; simp [waitElapsed] at h
  | succ n ih =>
      intro e r h extra
      have hsucc : n + 1 + extra = (n + extra) + 1 := by omega
      rw [hsucc]
      unfold waitElapsed at h ⊢
      by_cases hc : e > t
      · rw [if_pos hc] at h ⊢; exact h
      · rw [if_neg hc] at h ⊢; exact ih _ _ h extra

/-- With the ceiling 1200 and poll interval 5, the loop that never sees a
status raises at idealised elapsed time 1205: iteration 240 (elapsed
1200) still passes the strict `> timeout` check, iteration 241 fails it. -/
theorem waitElapsed_val : waitElapsed checkTimeout checkPoll 242 0 = some 1205 := by
  decide

/-- C3: awaiting an Order whose status is never set polls at interval 5
with hard ceiling `60 * 20 = 1200`: for any fuel at least 242 the call
fails with the timeout error at idealised elapsed time 1205 — no earlier
than the ceiling, no later than ceiling + one poll interval — leaving the
ledger (hence the selected Order) unchanged and issuing no gateway
request. -/
theorem c3_timeout_bound (ledger : Ledger) (uid : Nat) (pt : String)
    (ups : List Order) (t : Order) (i extra : Nat)
    (hget : ledgerGet ledger uid = some ups)
    (hsel : firstMatch pt ups = some (t, i))
    (hst : t.payment_status = none) :
    check_payment_data ledger uid pt (242 + extra) = (.timeoutErr 1205, ledger, []) ∧
    checkTimeout ≤ 1205 ∧ 1205 ≤ checkTimeout + checkPoll := by
  refine ⟨?_, by decide, by decide⟩
  have hwait := waitElapsed_extra checkTimeout checkPoll 242 0 1205 waitElapsed_val extra
  simp only [check_payment_data, hget, Option.getD_some, rebuildPass_none,
    selectPair_eq_firstMatch, hsel, Option.isSome_some, if_true, hst, hwait,
    ledgerSet_self ledger uid ups hget]

theorem c3_timeout_bound_witness :
    ledgerGet [(7, [⟨"7-50", "album", 50, none⟩])] 7 = some [⟨"7-50", "album", 50, none⟩] ∧
    firstMatch "album" [⟨"7-50", "album", 50, none⟩] =
      some (⟨"7-50", "album", 50, none⟩, 0) ∧
    (⟨"7-50", "album", 50, none⟩ : Order).payment_status = none ∧
    (check_payment_data [(7, [⟨"7-50", "album", 50, none⟩])] 7 "album" 242 =
      (.timeoutErr 1205, [(7, [⟨"7-50", "album", 50, none⟩])], []) ∧
     checkTimeout ≤ 1205 ∧ 1205 ≤ checkTimeout + checkPoll) :=
  ⟨by decide, by decide, rfl,
   c3_timeout_bound [(7, [⟨"7-50", "album", 50, none⟩])] 7 "album"
     [⟨"7-50", "album", 50, none⟩] ⟨"7-50", "album", 50, none⟩ 0 0
     (by decide) (by decide) rfl⟩

/-- C9 counterexample: two Orders of the same product type; both
concurrent awaiters select the first (index 0); after it resolves, the
first completion pops it — and the second completion ALSO returns
normally: `pop(0)` now removes the other, never-observed Order while the
call returns the first Order's status. Both calls complete normally and
order "7-51" is retired without ever being observed, violating "each
order is observed and retired exactly once". -/
theorem c9_counterexample :
    selectPair "album"
        [⟨"7-50", "album", 50, some "Approved"⟩, ⟨"7-51", "album", 51, none⟩] =
      (some ⟨"7-50", "album", 50, some "Approved"⟩, some 0) ∧
    completeStep ⟨"7-50", "album", 50, some "Approved"⟩ 0
        [⟨"7-50", "album", 50, some "Approved"⟩, ⟨"7-51", "album", 51, none⟩] =
      .done [⟨"7-51", "album", 51, none⟩] "Approved" ∧
    completeStep ⟨"7-50", "album", 50, some "Approved"⟩ 0
        [⟨"7-51", "album", 51, none⟩] =
      .done [] "Approved" := by
  decide

/-- C9 amended: the selected Order itself is removed by at most one of
the two concurrent completions. The first completion pops it from the
shared list; the second — resuming on the aliased, now shorter list —
either raises IndexError (re-raised to its caller: with a single
matching Order only one call completes normally) or pops whichever
DIFFERENT Order then occupies the recorded index, returning the first
Order's status, so a multi-Order sequence can see both calls return
normally with an unobserved Order retired. -/
theorem c9_amended (l : List Order) (t : Order) (idx : Nat) (s : String)
    (hget : l.get? idx = some t)
    (hst : t.payment_status = some s)
    (honce : t ∉ l.eraseIdx idx) :
    completeStep t idx l = .done (l.eraseIdx idx) s ∧
    (completeStep t idx (l.eraseIdx idx) = .indexError ∨
      ∃ o', (l.eraseIdx idx).get? idx = some o' ∧ o' ≠ t ∧
        completeStep t idx (l.eraseIdx idx) =
          .done ((l.eraseIdx idx).eraseIdx idx) s) := by
  have hlt : idx < l.length := (List.get?_eq_some.mp hget).1
  constructor
  · simp [completeStep, hst, hlt]
  · by_cases h2 : idx < (l.eraseIdx idx).length
    · right
      refine ⟨(l.eraseIdx idx).get ⟨idx, h2⟩, List.get?_eq_get h2, ?_, ?_⟩
      · intro heq
        exact honce (heq ▸ List.get_mem _ idx h2)
      · simp [completeStep, hst, h2]
    · left
      simp [completeStep, hst, h2]

theorem c9_amended_witness :
    ([⟨"7-50", "album", 50, some "Approved"⟩] : List Order).get? 0 =
      some ⟨"7-50", "album", 50, some "Approved"⟩ ∧
    (⟨"7-50", "album", 50, some "Approved"⟩ : Order).payment_status = some "Approved" ∧
    (⟨"7-50", "album", 50, some "Approved"⟩ : Order) ∉
      ([⟨"7-50", "album", 50, some "Approved"⟩] : List Order).eraseIdx 0 ∧
    (completeStep ⟨"7-50", "album", 50, some "Approved"⟩ 0
        [⟨"7-50", "album", 50, some "Approved"⟩] =
      .done (([⟨"7-50", "album", 50, some "Approved"⟩] : List Order).eraseIdx 0)
        "Approved" ∧
     (completeStep ⟨"7-50", "album", 50, some "Approved"⟩ 0
          (([⟨"7-50", "album", 50, some "Approved"⟩] : List Order).eraseIdx 0) =
        .indexError ∨
      ∃ o', (([⟨"7-50", "album", 50, some "Approved"⟩] : List Order).eraseIdx 0).get? 0 =
          some o' ∧ o' ≠ ⟨"7-50", "album", 50, some "Approved"⟩ ∧
        completeStep ⟨"7-50", "album", 50, some "Approved"⟩ 0
            (([⟨"7-50", "album", 50, some "Approved"⟩] : List Order).eraseIdx 0) =
          .done ((([⟨"7-50", "album", 50, some "Approved"⟩] : List Order).eraseIdx
            0).eraseIdx 0) "Approved")) :=
  ⟨by decide, rfl, by decide,
   c9_amended [⟨"7-50", "album", 50, some "Approved"⟩]
     ⟨"7-50", "album", 50, some "Approved"⟩ 0 "Approved" (by decide) rfl (by decide)⟩

/-- C8: the exact strings handed to the signing function: for invoice
creation it is the semicolon-join
merchant;domain;reference;date;amount;UAH;product;1;amount, and every
request a reconciliation sweep issues signs
merchant;(created_at - 1000);window_end where the window start is the
order's creation timestamp minus the 1000-second lookback and window_end
is the single wall-clock value captured once at the start of the sweep
(the same `dateEnd` in every request of the sweep). -/
theorem c8_signature_strings (ma dn orderRef pname : String)
    (orderDate amount dateEnd : Int) (resp : Order → List Transaction)
    (ledger : Ledger) (req : SigRequest)
    (hmem : req ∈ (sweepLedger ma dateEnd resp ledger).1) :
    create_invoice_signature_data ma dn orderRef orderDate amount pname =
      signJoin [ma, dn, orderRef, toString orderDate, toString amount, "UAH",
        pname, "1", toString amount] ∧
    ∃ o : Order, (∃ e ∈ ledger, o ∈ e.2) ∧ req = requestFor ma dateEnd o ∧
      req.sigData = signJoin [ma, toString (o.order_date - 1000), toString dateEnd] ∧
      req.dateBegin = o.order_date - 1000 ∧ req.dateEnd = dateEnd := by
  constructor
  · have hU : (";UAH;" : String) = ";" ++ "UAH" ++ ";" := rfl
    have h1 : (";1;" : String) = ";" ++ "1" ++ ";" := rfl
    simp only [create_invoice_signature_data, signJoin, hU, h1, String.append_assoc]
  · rw [sweepLedger_requests] at hmem
    simp only [List.mem_flatten, List.mem_map] at hmem
    obtain ⟨_, ⟨e, he, rfl⟩, hreq⟩ := hmem
    obtain ⟨o, ho, rfl⟩ := List.mem_map.mp hreq
    refine ⟨o, ⟨e, he, ho⟩, rfl, ?_, rfl, rfl⟩
    simp only [requestFor, get_payment_signature_data, signJoin, String.append_assoc]

theorem c8_signature_strings_witness :
    (requestFor "MA" 99 ⟨"7-50", "album", 50, none⟩) ∈
      (sweepLedger "MA" 99 (fun _ => []) [(7, [⟨"7-50", "album", 50, none⟩])]).1 ∧
    (create_invoice_signature_data "MA" "dom" "7-50" 50 100 "album" =
      signJoin ["MA", "dom", "7-50", toString (50 : Int), toString (100 : Int), "UAH",
        "album", "1", toString (100 : Int)] ∧
     ∃ o : Order, (∃ e ∈ [(7, [(⟨"7-50", "album", 50, none⟩ : Order)])], o ∈ e.2) ∧
       requestFor "MA" 99 ⟨"7-50", "album", 50, none⟩ = requestFor "MA" 99 o ∧
       (requestFor "MA" 99 ⟨"7-50", "album", 50, none⟩).sigData =
         signJoin ["MA", toString (o.order_date - 1000), toString (99 : Int)] ∧
       (requestFor "MA" 99 ⟨"7-50", "album", 50, none⟩).dateBegin = o.order_date - 1000 ∧
       (requestFor "MA" 99 ⟨"7-50", "album", 50, none⟩).dateEnd = 99) :=
  ⟨by decide,
   c8_signature_strings "MA" "dom" "7-50" "album" 50 100 99 (fun _ => [])
     [(7, [⟨"7-50", "album", 50, none⟩])]
     (requestFor "MA" 99 ⟨"7-50", "album", 50, none⟩) (by decide)⟩

end WFP
